import Mathlib

/-!
# NEST kernel facade `Network` (nestkernel/network.h)

A shallow embedding of the inline member functions of class `Network` and
of the functor `ModelComp`, together with the properties of them that the
kernel specification relies on.

Conventions of the embedding:

* `index`, `thread`, `size_t` values are natural numbers; arithmetic that
  the source performs in `size_t` is reduced modulo `2 ^ 64` explicitly.
  A `long_t` value is an integer; arithmetic that the source performs in
  `long_t` wraps into `[-2 ^ 63, 2 ^ 63)` explicitly.
* A pointer `T*` is an `Option T`; the null pointer is `none`.
* A member function whose effect on the network matters is given in
  state-passing form: it yields its result together with the network state
  it leaves behind. For a `const` member that state is the one it was
  called on.
* `throw` and a failed `assert` are the two ways a call can fail; both are
  values of `Failure`. `assert` is taken as active (a build without
  `NDEBUG`).
* Members of collaborating classes, and members of `Network` defined out of
  line, that a forwarding function calls are parameters of its embedding.
-/

namespace nest

/-! ## Basic types -/

/-- Modulus of `size_t` arithmetic (LP64). -/
def SIZE_T_MOD : Nat := 2 ^ 64

/-- Subtraction as C++ performs it on two `size_t` operands. -/
def size_t_sub (a b : Nat) : Nat :=
  (a % SIZE_T_MOD + SIZE_T_MOD - b % SIZE_T_MOD) % SIZE_T_MOD

/-- Addition as the compiled code performs it on two `long_t` operands: in
two's complement, wrapping into `[-2 ^ 63, 2 ^ 63)`. Where the sum is
representable it is the sum; `LONG_MAX + 1` is `LONG_MIN`. -/
def long_t_add (a b : Int) : Int :=
  (a + b + 2 ^ 63) % 2 ^ 64 - 2 ^ 63

/-- The ways a kernel call can fail: the exceptions thrown by the functions
embedded here, and the abort of a failed `assert`. -/
inductive Failure where
  | UnknownModelID (id : Nat)
  | UnknownNode (id : Nat)
  | AssertionFailed
  deriving DecidableEq, Repr

/-- Modelled from the spec: class `Time` (nest_time.h is not part of the
sources at hand). Time is a fixed-point count of integer tics. -/
structure Time where
  tics : Int
  deriving DecidableEq, Repr

/-- Modelled from the spec: `Time::step(n)`, the time span of `n` simulation
steps, each step being `tics_per_step` tics. -/
def Time.step (tics_per_step : Int) (n : Int) : Time :=
  ⟨n * tics_per_step⟩

/-- Modelled from the spec: `operator+` of class `Time`. -/
def Time.add (a b : Time) : Time :=
  ⟨a.tics + b.tics⟩

/-- The variants of a node (node.h, compound.h, proxynode.h are not part of
the sources at hand). -/
inductive NodeKind where
  | ordinary
  | compound
  | proxy
  deriving DecidableEq, Repr

/-- What `Network` reads from a `Node`: the values returned by `get_gid()`,
`get_thread()`, `has_proxies()` and `is_off_grid()`, and the node variant. -/
structure Node where
  gid_ : Nat
  thread_ : Nat
  has_proxies_ : Bool
  is_off_grid_ : Bool
  kind : NodeKind
  deriving DecidableEq, Repr

def Node.get_gid (n : Node) : Nat := n.gid_

def Node.get_thread (n : Node) : Nat := n.thread_

def Node.has_proxies (n : Node) : Bool := n.has_proxies_

def Node.is_off_grid (n : Node) : Bool := n.is_off_grid_

/-- What `Network` reads from a `Model`: its name. -/
structure Model where
  name_ : String
  deriving DecidableEq, Repr

def Model.get_name (m : Model) : String := m.name_

/-- An event as far as `Network::send` touches it: the time stamp, the
sender, and `fields` standing for every other data member (receiver, port,
delay, weight, offset, multiplicity), none of which `send` writes. -/
structure Event where
  stamp_ : Time
  sender_ : Option Node
  fields : List Int
  deriving DecidableEq, Repr

def Event.set_stamp (e : Event) (t : Time) : Event := { e with stamp_ := t }

def Event.set_sender (e : Event) (source : Node) : Event :=
  { e with sender_ := some source }

/-- The statically known event type a call of the template `send` is
instantiated with. -/
inductive EventKind where
  | SpikeEvent
  | DSSpikeEvent
  | other (name : String)
  deriving DecidableEq, Repr

/-! ## Collaborators of `Network` -/

/-- A call received by the scheduler's remote path. -/
inductive RemoteCall where
  | send_remote (t : Nat) (e : Event) (lag : Int)
  | send_offgrid_remote (t : Nat) (e : Event) (lag : Int)
  deriving DecidableEq, Repr

/-- Modelled from the spec: class `Scheduler` (scheduler.h is not part of the
sources at hand), as far as `Network` uses it: the slice counter, the origin
of the current slice, the process topology, and the calls its remote path
has received, oldest first. -/
structure Scheduler where
  slice_ : Nat
  slice_origin_ : Time
  n_threads_ : Nat
  num_processes_ : Nat
  rank_ : Nat
  remote_calls : List RemoteCall
  deriving DecidableEq, Repr

def Scheduler.get_slice (s : Scheduler) : Nat := s.slice_

def Scheduler.get_slice_origin (s : Scheduler) : Time := s.slice_origin_

/-- Modelled from the spec: `Scheduler::send_remote` buffers the event for
the exchange at the slice boundary; the embedding records the call. -/
def Scheduler.send_remote (s : Scheduler) (t : Nat) (e : Event) (lag : Int) : Scheduler :=
  { s with remote_calls := s.remote_calls ++ [RemoteCall.send_remote t e lag] }

/-- Modelled from the spec: `Scheduler::send_offgrid_remote`, the off-grid
counterpart of `send_remote`; the embedding records the call. -/
def Scheduler.send_offgrid_remote (s : Scheduler) (t : Nat) (e : Event) (lag : Int) :
    Scheduler :=
  { s with remote_calls := s.remote_calls ++ [RemoteCall.send_offgrid_remote t e lag] }

/-- A call of `ConnectionManager::send(t, sgid, e)`. -/
structure LocalCall where
  t : Nat
  sgid : Nat
  e : Event
  deriving DecidableEq, Repr

/-- Modelled from the spec: class `ConnectionManager` (connection_manager.h is
not part of the sources at hand), as far as event dispatch uses it: the calls
of `send` it has received, oldest first. -/
structure ConnectionManager where
  local_calls : List LocalCall
  deriving DecidableEq, Repr

/-- Modelled from the spec: `ConnectionManager::send(t, sgid, e)` fans the
event out to the targets of source `sgid` on thread `t`; the embedding
records the call. -/
def ConnectionManager.send (cm : ConnectionManager) (t : Nat) (sgid : Nat) (e : Event) :
    ConnectionManager :=
  { cm with local_calls := cm.local_calls ++ [LocalCall.mk t sgid e] }

/-! ## Class `Network` -/

/-- The data members of `Network` that the embedded functions read or write.
`TICS_PER_STEP` is the static resolution of class `Time`. -/
structure Network where
  scheduler_ : Scheduler
  connection_manager_ : ConnectionManager
  pristine_models_ : List (Option Model × Bool)
  models_ : List (Option Model)
  nodes_ : List (Option Node)
  TICS_PER_STEP : Int
  deriving DecidableEq, Repr

/-- Member `size_t Network::write_toggle() const`:
`return scheduler_.get_slice() % 2;` -/
def Network.write_toggle (net : Network) : Nat :=
  net.scheduler_.get_slice % 2

/-- Member `size_t Network::read_toggle() const`:
`return 1 - write_toggle();`, the subtraction being one of `size_t`. -/
def Network.read_toggle (net : Network) : Nat :=
  size_t_sub 1 net.write_toggle

/-- Member `Model* Network::get_model(index m) const`:
`if (m < models_.size() && models_[m] != 0) return models_[m];
 else throw UnknownModelID(m);`
The second operand of `&&` is evaluated only when the first holds. -/
def Network.get_model (net : Network) (m : Nat) : Except Failure (Option Model) × Network :=
  if h : m < net.models_.length then
    if net.models_[m] ≠ none then
      (Except.ok net.models_[m], net)
    else
      (Except.error (Failure.UnknownModelID m), net)
  else
    (Except.error (Failure.UnknownModelID m), net)

/-- Member `index Network::size() const`: `return nodes_.size();` -/
def Network.size (net : Network) : Nat × Network :=
  (net.nodes_.length, net)

/-- Member `Time const& Network::get_slice_origin() const`:
`return scheduler_.get_slice_origin();` -/
def Network.get_slice_origin (net : Network) : Time :=
  net.scheduler_.get_slice_origin

/-- Member `void Network::send_local(thread t, Node& source, Event& e)`:
`index sgid = source.get_gid(); connection_manager_.send(t, sgid, e);` -/
def Network.send_local (net : Network) (t : Nat) (source : Node) (e : Event) : Network :=
  let sgid := source.get_gid
  { net with connection_manager_ := net.connection_manager_.send t sgid e }

/-- The generic template `Network::send<EventT>(Node& source, EventT& e, long_t lag)`:
stamp with `get_slice_origin() + Time::step(lag + 1)`, set the sender,
`assert(!source.has_proxies())`, then `send_local`.
The result is the event as `send` has written it. -/
def Network.send_generic (net : Network) (source : Node) (e : Event) (lag : Int) :
    Except Failure Event × Network :=
  let e1 := e.set_stamp (Time.add net.get_slice_origin (Time.step net.TICS_PER_STEP (long_t_add lag 1)))
  let e2 := e1.set_sender source
  let t := source.get_thread
  if !source.has_proxies then
    (Except.ok e2, net.send_local t source e2)
  else
    (Except.error Failure.AssertionFailed, net)

/-- The specialization `Network::send<SpikeEvent>`: stamp, set the sender, then
the remote path of the scheduler when the source has proxies (off-grid or
on-grid by `source.is_off_grid()`), `send_local` otherwise. -/
def Network.send_SpikeEvent (net : Network) (source : Node) (e : Event) (lag : Int) :
    Except Failure Event × Network :=
  let e1 := e.set_stamp (Time.add net.get_slice_origin (Time.step net.TICS_PER_STEP (long_t_add lag 1)))
  let e2 := e1.set_sender source
  let t := source.get_thread
  if source.has_proxies then
    if source.is_off_grid then
      (Except.ok e2, { net with scheduler_ := net.scheduler_.send_offgrid_remote t e2 lag })
    else
      (Except.ok e2, { net with scheduler_ := net.scheduler_.send_remote t e2 lag })
  else
    (Except.ok e2, net.send_local t source e2)

/-- The specialization `Network::send<DSSpikeEvent>`: stamp, set the sender,
`assert(!source.has_proxies())`, then `send_local`. -/
def Network.send_DSSpikeEvent (net : Network) (source : Node) (e : Event) (lag : Int) :
    Except Failure Event × Network :=
  let e1 := e.set_stamp (Time.add net.get_slice_origin (Time.step net.TICS_PER_STEP (long_t_add lag 1)))
  let e2 := e1.set_sender source
  let t := source.get_thread
  if !source.has_proxies then
    (Except.ok e2, net.send_local t source e2)
  else
    (Except.error Failure.AssertionFailed, net)

/-- Template instantiation of `Network::send`: the specialization for the
static event type when there is one, the generic template otherwise. -/
def Network.send (net : Network) (k : EventKind) (source : Node) (e : Event) (lag : Int) :
    Except Failure Event × Network :=
  match k with
  | EventKind.SpikeEvent => net.send_SpikeEvent source e lag
  | EventKind.DSSpikeEvent => net.send_DSSpikeEvent source e lag
  | EventKind.other _ => net.send_generic source e lag

/-- The conversions between virtual processes and threads of class
`Scheduler` (scheduler.h is not part of the sources at hand), taken as a
parameter: `Scheduler::vp_to_thread(vp)` and `Scheduler::thread_to_vp(t)`,
each a function of the scheduler it is called on. -/
structure VPAccess where
  vp_to_thread : Scheduler → Nat → Nat
  thread_to_vp : Scheduler → Nat → Nat

/-- Member `thread Network::vp_to_thread(thread vp) const`:
`return scheduler_.vp_to_thread(vp);` -/
def Network.vp_to_thread (acc : VPAccess) (net : Network) (vp : Nat) : Nat :=
  acc.vp_to_thread net.scheduler_ vp

/-- Member `thread Network::thread_to_vp(thread t) const`:
`return scheduler_.thread_to_vp(t);` -/
def Network.thread_to_vp (acc : VPAccess) (net : Network) (t : Nat) : Nat :=
  acc.thread_to_vp net.scheduler_ t

/-- Member `thread Network::get_num_threads() const`. -/
def Network.get_num_threads (net : Network) : Nat :=
  net.scheduler_.n_threads_

/-- Member `thread Network::get_num_processes() const`. -/
def Network.get_num_processes (net : Network) : Nat :=
  net.scheduler_.num_processes_

/-- A thread index is valid when it is below the number of threads of the
process. -/
def Network.valid_thread (net : Network) (t : Nat) : Prop :=
  t < net.get_num_threads

/-- A virtual process is valid when it is below
`total_VPs = num_threads * num_processes`. -/
def Network.valid_vp (net : Network) (vp : Nat) : Prop :=
  vp < net.get_num_threads * net.get_num_processes

instance (net : Network) (t : Nat) : Decidable (net.valid_thread t) := by
  unfold Network.valid_thread; infer_instance

instance (net : Network) (vp : Nat) : Decidable (net.valid_vp vp) := by
  unfold Network.valid_vp; infer_instance

/-- The event as the first two statements of every variant of `send` leave
it: `e.set_stamp(get_slice_origin() + Time::step(lag + 1)); e.set_sender(source);`
with `lag + 1` an addition of `long_t`. -/
def Network.stamped (net : Network) (source : Node) (e : Event) (lag : Int) : Event :=
  (e.set_stamp (Time.add net.get_slice_origin (Time.step net.TICS_PER_STEP (long_t_add lag 1)))).set_sender
    source

/-- Whether an entry of the flat node list points to a container node. -/
def is_compound (p : Option Node) : Bool :=
  match p with
  | some n => n.kind == NodeKind.compound
  | none => false

/-- The event a call on the remote path of the scheduler carries. -/
def RemoteCall.event (c : RemoteCall) : Event :=
  match c with
  | RemoteCall.send_remote _ e _ => e
  | RemoteCall.send_offgrid_remote _ e _ => e

/-- Modelled from the spec: the per-connection property access of class
`ConnectionManager` (connection_manager.h is not part of the sources at hand),
taken as a parameter: `get_synapse_status(gid, syn, p, tid)` and
`set_synapse_status(gid, syn, p, tid, d)`, keyed by (GID, synapse-type, port,
thread). `D` stands for `DictionaryDatum`. Each yields its result, a
dictionary or a failure, with the connection manager it leaves behind; for
`set_synapse_status` the dictionary is `d` as the call leaves it, `d` being
passed by reference. -/
structure SynapseStatusAccess (D : Type) where
  get_synapse_status : ConnectionManager → Nat → Nat → Int → Nat →
    Except Failure D × ConnectionManager
  set_synapse_status : ConnectionManager → Nat → Nat → Int → Nat → D →
    Except Failure D × ConnectionManager

/-- Member `DictionaryDatum Network::get_synapse_status(index gid, index syn,
port p, thread tid)`:
`return connection_manager_.get_synapse_status(gid, syn, p, tid);` -/
def Network.get_synapse_status {D : Type} (cm : SynapseStatusAccess D) (net : Network)
    (gid syn : Nat) (p : Int) (tid : Nat) : Except Failure D × Network :=
  let r := cm.get_synapse_status net.connection_manager_ gid syn p tid
  (r.1, { net with connection_manager_ := r.2 })

/-- Member `void Network::set_synapse_status(index gid, index syn, port p,
thread tid, DictionaryDatum& d)`:
`connection_manager_.set_synapse_status(gid, syn, p, tid, d);` -/
def Network.set_synapse_status {D : Type} (cm : SynapseStatusAccess D) (net : Network)
    (gid syn : Nat) (p : Int) (tid : Nat) (d : D) : Except Failure D × Network :=
  let r := cm.set_synapse_status net.connection_manager_ gid syn p tid d
  (r.1, { net with connection_manager_ := r.2 })

/-- Modelled from the spec: the members of `Network` that resolve nodes and
are defined out of line (network.cpp is not part of the sources at hand),
taken as a parameter. `get_node(index, thread thr = 0)` resolves to a node
pointer or fails (network.h documents `@throws nest::UnknownNode`);
`get_adr(Node const*)` returns the address array of a node (network.h
documents no failure for it). Both are `const`. -/
structure NodeAccess where
  get_node : Network → Nat → Nat → Except Failure (Option Node)
  get_adr : Network → Option Node → List Nat

/-- Member `std::vector<size_t> Network::get_adr(index n) const`:
`return get_adr(get_node(n));`, where `get_node(n)` is `get_node(n, 0)` by the
default argument `thread thr = 0`. An exception of `get_node` leaves the
function before `get_adr(Node const*)` is called. -/
def Network.get_adr (acc : NodeAccess) (net : Network) (n : Nat) :
    Except Failure (List Nat) × Network :=
  match acc.get_node net n 0 with
  | Except.ok p => (Except.ok (acc.get_adr net p), net)
  | Except.error f => (Except.error f, net)

/-- Member `bool Network::has_user_models() const`:
`return models_.size() > pristine_models_.size();` -/
def Network.has_user_models (net : Network) : Bool :=
  decide (net.models_.length > net.pristine_models_.length)

/-- Element access `models[a]` of `std::vector<Model*>` with an `int` index, as
far as the result is defined: a negative `a` converts to an index beyond any
vector, and an index beyond the vector has no defined result (`none`). -/
def vector_at (models : List (Option Model)) (a : Int) : Option (Option Model) :=
  if 0 ≤ a then models[a.toNat]? else none

/-- The name `models[a]->get_name()`; there is none (`none`) when `models[a]`
is not defined or is the null pointer, the dereference being undefined
then. -/
def name_at (models : List (Option Model)) (a : Int) : Option String :=
  match vector_at models a with
  | some (some m) => some m.get_name
  | _ => none

/-- The functor `ModelComp`, constructed on `models`:
`bool operator()(int a, int b)
 { return models[a]->get_name() < models[b]->get_name(); }`
The comparison is that of `std::string`, lexicographic by character. -/
def ModelComp (models : List (Option Model)) (a b : Int) : Option Bool :=
  match name_at models a, name_at models b with
  | some na, some nb => some (decide (na < nb))
  | _, _ => none

/-- An index is a valid model index when it is within the model list and the
entry there is a model (not null), as `get_model` requires. -/
def valid_model_index (models : List (Option Model)) (a : Int) : Prop :=
  ∃ m : Model, vector_at models a = some (some m)

/-! ## A small network used in the examples below -/

def exTime : Time := ⟨1000⟩

def exScheduler : Scheduler :=
  { slice_ := 4, slice_origin_ := exTime, n_threads_ := 1, num_processes_ := 2,
    rank_ := 0, remote_calls := [] }

def exNetwork : Network :=
  { scheduler_ := exScheduler, connection_manager_ := ⟨[]⟩,
    pristine_models_ := [(some ⟨"iaf_neuron"⟩, false)],
    models_ := [some ⟨"iaf_neuron"⟩, none],
    nodes_ := [some ⟨0, 0, false, false, NodeKind.compound⟩,
               some ⟨1, 0, true, false, NodeKind.ordinary⟩],
    TICS_PER_STEP := 100 }

/-- A neuron with remote fan-out. -/
def exNeuron : Node := ⟨1, 0, true, false, NodeKind.ordinary⟩

/-- A device, which has no proxies. -/
def exDevice : Node := ⟨2, 0, false, false, NodeKind.ordinary⟩

def exEvent : Event := ⟨⟨0⟩, none, [1, 0]⟩

/-- The root container. -/
def exRoot : Node := ⟨0, 0, false, false, NodeKind.compound⟩

/-- A network holding the root container and 100 created nodes. -/
def exNetwork101 : Network :=
  { exNetwork with nodes_ := some exRoot :: List.replicate 100 (some exDevice) }

/-- A connection manager that answers every per-connection access with the
keys it was asked for, in the order it received them, followed for
`set_synapse_status` by the dictionary it was given. -/
def exEchoAccess : SynapseStatusAccess (List Int) :=
  { get_synapse_status := fun cm gid syn p tid => (Except.ok [(gid : Int), syn, p, tid], cm),
    set_synapse_status := fun cm gid syn p tid d =>
      (Except.ok ((gid : Int) :: syn :: p :: tid :: d), cm) }

/-- A node access for the examples: `get_node` looks the index up in the flat
node list and fails with `UnknownNode` beyond it; the address of a node is
given by its gid. -/
def exNodeAccess : NodeAccess :=
  { get_node := fun net n _ =>
      if h : n < net.nodes_.length then Except.ok net.nodes_[n]
      else Except.error (Failure.UnknownNode n),
    get_adr := fun _ p =>
      match p with
      | some node => [0, node.gid_]
      | none => [] }

/-- A model list with a built-in model, a null entry and two copies. -/
def exModels : List (Option Model) :=
  [some ⟨"iaf_neuron"⟩, none, some ⟨"iaf_neuron_copy"⟩, some ⟨"dc_generator"⟩]

/-- A network with a user model: one more model than pristine models. -/
def exNetworkCopied : Network :=
  { exNetwork with
      pristine_models_ := [(some ⟨"iaf_neuron"⟩, false)],
      models_ := [some ⟨"iaf_neuron"⟩, some ⟨"my_neuron"⟩] }

/-! ## Helper lemmas -/

theorem size_t_sub_one_mod_two (s : Nat) : size_t_sub 1 (s % 2) = 1 - s % 2 := by
  have h : s % 2 < 2 := Nat.mod_lt _ (by decide)
  unfold size_t_sub SIZE_T_MOD
  norm_num
  omega

theorem write_toggle_eq (net : Network) : net.write_toggle = net.scheduler_.slice_ % 2 := rfl

theorem read_toggle_eq (net : Network) : net.read_toggle = 1 - net.scheduler_.slice_ % 2 := by
  unfold Network.read_toggle
  rw [write_toggle_eq, size_t_sub_one_mod_two]

theorem send_generic_eq (net : Network) (source : Node) (e : Event) (lag : Int) :
    net.send_generic source e lag =
      if source.has_proxies = true then (Except.error Failure.AssertionFailed, net)
      else (Except.ok (net.stamped source e lag),
            net.send_local source.get_thread source (net.stamped source e lag)) := by
  rcases source with ⟨g, t, hp, og, k⟩
  cases hp <;> rfl

theorem send_DSSpikeEvent_eq (net : Network) (source : Node) (e : Event) (lag : Int) :
    net.send_DSSpikeEvent source e lag =
      if source.has_proxies = true then (Except.error Failure.AssertionFailed, net)
      else (Except.ok (net.stamped source e lag),
            net.send_local source.get_thread source (net.stamped source e lag)) := by
  rcases source with ⟨g, t, hp, og, k⟩
  cases hp <;> rfl

theorem send_SpikeEvent_eq (net : Network) (source : Node) (e : Event) (lag : Int) :
    net.send_SpikeEvent source e lag =
      if source.has_proxies = true then
        if source.is_off_grid = true then
          (Except.ok (net.stamped source e lag),
           { net with scheduler_ :=
               net.scheduler_.send_offgrid_remote source.get_thread (net.stamped source e lag) lag })
        else
          (Except.ok (net.stamped source e lag),
           { net with scheduler_ :=
               net.scheduler_.send_remote source.get_thread (net.stamped source e lag) lag })
      else (Except.ok (net.stamped source e lag),
            net.send_local source.get_thread source (net.stamped source e lag)) := by
  rcases source with ⟨g, t, hp, og, k⟩
  cases hp <;> cases og <;> rfl

theorem send_local_scheduler (net : Network) (t : Nat) (source : Node) (e : Event) :
    (net.send_local t source e).scheduler_ = net.scheduler_ := rfl

theorem send_local_calls (net : Network) (t : Nat) (source : Node) (e : Event) :
    (net.send_local t source e).connection_manager_.local_calls =
      net.connection_manager_.local_calls ++ [LocalCall.mk t source.get_gid e] := rfl

theorem name_at_of_valid (models : List (Option Model)) (a : Int) (m : Model)
    (h : vector_at models a = some (some m)) : name_at models a = some m.get_name := by
  unfold name_at
  rw [h]

theorem ModelComp_of_valid (models : List (Option Model)) (a b : Int) (ma mb : Model)
    (ha : vector_at models a = some (some ma)) (hb : vector_at models b = some (some mb)) :
    ModelComp models a b = some (decide (ma.get_name < mb.get_name)) := by
  unfold ModelComp
  rw [name_at_of_valid models a ma ha, name_at_of_valid models b mb hb]

/-! ## Slice parity toggles -/

/-- C1: when the slice counter has advanced from `s` to `s + 1` (also when a
64-bit counter wraps around), the new `read_toggle()` equals the previous
`write_toggle()`, and the new `write_toggle()` equals the previous
`read_toggle()`. -/
theorem toggles_alternate (net net' : Network)
    (h : net'.scheduler_.get_slice = net.scheduler_.get_slice + 1 ∨
         net'.scheduler_.get_slice = (net.scheduler_.get_slice + 1) % SIZE_T_MOD) :
    net'.read_toggle = net.write_toggle ∧ net'.write_toggle = net.read_toggle := by
  simp only [read_toggle_eq, write_toggle_eq]
  unfold Scheduler.get_slice SIZE_T_MOD at h
  norm_num at h
  omega

theorem toggles_alternate_witness :
    (Network.read_toggle { exNetwork with scheduler_ := { exScheduler with slice_ := 5 } }
        = exNetwork.write_toggle) ∧
    (Network.write_toggle { exNetwork with scheduler_ := { exScheduler with slice_ := 5 } }
        = exNetwork.read_toggle) :=
  toggles_alternate exNetwork { exNetwork with scheduler_ := { exScheduler with slice_ := 5 } }
    (Or.inl rfl)

/-- C2: `write_toggle()` returns the slice counter modulo 2: 0 exactly when
the current slice is even, 1 exactly when it is odd, and no other value. -/
theorem write_toggle_is_slice_parity (net : Network) :
    net.write_toggle = net.scheduler_.get_slice % 2 ∧
    (net.write_toggle = 0 ↔ Even net.scheduler_.get_slice) ∧
    (net.write_toggle = 1 ↔ Odd net.scheduler_.get_slice) ∧
    (net.write_toggle = 0 ∨ net.write_toggle = 1) := by
  refine ⟨rfl, ?_, ?_, ?_⟩
  · rw [Nat.even_iff]; rfl
  · rw [Nat.odd_iff]; rfl
  · unfold Network.write_toggle; omega

/-- C3: `read_toggle()` is `1 - write_toggle()` and the `size_t` subtraction
does not underflow (`write_toggle() <= 1`, so the machine result is the
mathematical difference); both toggles are 0 or 1, they sum to 1, and they
are never equal. -/
theorem read_toggle_complements_write_toggle (net : Network) :
    net.write_toggle ≤ 1 ∧
    (net.read_toggle : Int) = 1 - (net.write_toggle : Int) ∧
    net.read_toggle = 1 - net.write_toggle ∧
    (net.read_toggle = 0 ∨ net.read_toggle = 1) ∧
    (net.write_toggle = 0 ∨ net.write_toggle = 1) ∧
    net.read_toggle + net.write_toggle = 1 ∧
    net.read_toggle ≠ net.write_toggle := by
  simp only [read_toggle_eq, write_toggle_eq]
  have h : net.scheduler_.slice_ % 2 < 2 := Nat.mod_lt _ (by decide)
  refine ⟨?_, ?_, ?_, ?_, ?_, ?_, ?_⟩
  all_goals first | trivial | omega

/-! ## Model lookup -/

/-- C4: `get_model(m)` fails with `UnknownModelID(m)` exactly when `m` is out
of range or the entry at index `m` is null; it fails in no other way; in
every other case it returns the entry stored at index `m`, which is not
null; and the network, so also the model list, is unchanged in both cases. -/
theorem get_model_spec (net : Network) (m : Nat) :
    ((net.get_model m).1 = Except.error (Failure.UnknownModelID m) ↔
        (net.models_.length ≤ m ∨ net.models_[m]? = some none)) ∧
    (¬ (net.models_.length ≤ m ∨ net.models_[m]? = some none) →
        ∃ mdl : Model, net.models_[m]? = some (some mdl) ∧
          (net.get_model m).1 = Except.ok (some mdl)) ∧
    (∀ f : Failure, (net.get_model m).1 = Except.error f → f = Failure.UnknownModelID m) ∧
    (net.get_model m).2 = net ∧
    (net.get_model m).2.models_ = net.models_ := by
  unfold Network.get_model
  by_cases h : m < net.models_.length
  · have hget : net.models_[m]? = some net.models_[m] := List.getElem?_eq_getElem h
    cases hm : net.models_[m] with
    | none => simp [h, hm, hget]
    | some mdl => simp [h, hm, hget, Nat.not_le.mpr h]
  · have hle : net.models_.length ≤ m := Nat.le_of_not_lt h
    simp [h, hle]

/-! ## Event dispatch -/

/-- C5 (as amended): for every source and every lag, `send<DSSpikeEvent>`
never reaches the remote path of the scheduler; for a source without
proxies it delivers through `send_local` on the thread of the source; for a
source with proxies the assertion `!source.has_proxies()` fails and nothing
is delivered. -/
theorem send_DSSpikeEvent_local_or_rejected (net : Network) (source : Node) (e : Event)
    (lag : Int) :
    (net.send EventKind.DSSpikeEvent source e lag).2.scheduler_ = net.scheduler_ ∧
    (source.has_proxies = false →
      net.send EventKind.DSSpikeEvent source e lag =
        (Except.ok (net.stamped source e lag),
         net.send_local source.get_thread source (net.stamped source e lag))) ∧
    (source.has_proxies = true →
      net.send EventKind.DSSpikeEvent source e lag =
        (Except.error Failure.AssertionFailed, net)) := by
  simp only [Network.send, send_DSSpikeEvent_eq]
  cases h : source.has_proxies <;> simp [send_local_scheduler]

theorem send_DSSpikeEvent_local_or_rejected_witness :
    exNetwork.send EventKind.DSSpikeEvent exDevice exEvent 0 =
      (Except.ok (exNetwork.stamped exDevice exEvent 0),
       exNetwork.send_local exDevice.get_thread exDevice (exNetwork.stamped exDevice exEvent 0)) :=
  (send_DSSpikeEvent_local_or_rejected exNetwork exDevice exEvent 0).2.1 rfl

/-- C5 (as stated) fails: a `DSSpikeEvent` sent from a node that has proxies
is not delivered locally; the call fails on its assertion and the connection
manager receives nothing. -/
theorem send_DSSpikeEvent_with_proxies_fails :
    exNeuron.has_proxies = true ∧
    (exNetwork.send EventKind.DSSpikeEvent exNeuron exEvent 0).1 =
      Except.error Failure.AssertionFailed ∧
    (exNetwork.send EventKind.DSSpikeEvent exNeuron exEvent 0).2.connection_manager_.local_calls
      = [] :=
  ⟨rfl, rfl, rfl⟩

/-- C6: a `SpikeEvent` sent from a source without proxies is delivered
exactly once through `send_local` on the thread of the source (the
connection manager receives one more call, for that thread, the gid of the
source and the stamped event), and the scheduler receives neither
`send_remote` nor `send_offgrid_remote`. -/
theorem send_SpikeEvent_without_proxies (net : Network) (source : Node) (e : Event)
    (lag : Int) (h : source.has_proxies = false) :
    net.send EventKind.SpikeEvent source e lag =
      (Except.ok (net.stamped source e lag),
       net.send_local source.get_thread source (net.stamped source e lag)) ∧
    (net.send EventKind.SpikeEvent source e lag).2.connection_manager_.local_calls =
      net.connection_manager_.local_calls ++
        [LocalCall.mk source.get_thread source.get_gid (net.stamped source e lag)] ∧
    (net.send EventKind.SpikeEvent source e lag).2.scheduler_.remote_calls =
      net.scheduler_.remote_calls ∧
    (net.send EventKind.SpikeEvent source e lag).2.scheduler_ = net.scheduler_ := by
  simp only [Network.send, send_SpikeEvent_eq]
  simp [h, send_local_scheduler, send_local_calls]

theorem send_SpikeEvent_without_proxies_witness :
    exNetwork.send EventKind.SpikeEvent exDevice exEvent 3 =
      (Except.ok (exNetwork.stamped exDevice exEvent 3),
       exNetwork.send_local exDevice.get_thread exDevice (exNetwork.stamped exDevice exEvent 3)) :=
  (send_SpikeEvent_without_proxies exNetwork exDevice exEvent 3 rfl).1

/-- C7: a `SpikeEvent` sent from a source with proxies is handed to the remote
path of the scheduler exactly once and `send_local` is not called (the
connection manager is untouched); the call is `send_offgrid_remote` exactly
when the source is off-grid and `send_remote` otherwise, with the thread of
the source, the stamped event and the lag as given. -/
theorem send_SpikeEvent_with_proxies (net : Network) (source : Node) (e : Event)
    (lag : Int) (h : source.has_proxies = true) :
    (net.send EventKind.SpikeEvent source e lag).1 = Except.ok (net.stamped source e lag) ∧
    (net.send EventKind.SpikeEvent source e lag).2.connection_manager_ =
      net.connection_manager_ ∧
    (net.send EventKind.SpikeEvent source e lag).2.scheduler_.remote_calls =
      net.scheduler_.remote_calls ++
        [if source.is_off_grid = true then
           RemoteCall.send_offgrid_remote source.get_thread (net.stamped source e lag) lag
         else
           RemoteCall.send_remote source.get_thread (net.stamped source e lag) lag] ∧
    (source.is_off_grid = true ↔
      (net.send EventKind.SpikeEvent source e lag).2.scheduler_.remote_calls.getLast? =
        some (RemoteCall.send_offgrid_remote source.get_thread (net.stamped source e lag) lag)) ∧
    (source.is_off_grid = false ↔
      (net.send EventKind.SpikeEvent source e lag).2.scheduler_.remote_calls.getLast? =
        some (RemoteCall.send_remote source.get_thread (net.stamped source e lag) lag)) := by
  simp only [Network.send, send_SpikeEvent_eq]
  cases hg : source.is_off_grid <;>
    simp [h, Scheduler.send_offgrid_remote, Scheduler.send_remote]

theorem send_SpikeEvent_with_proxies_witness :
    (exNetwork.send EventKind.SpikeEvent exNeuron exEvent 2).2.scheduler_.remote_calls =
      exNetwork.scheduler_.remote_calls ++
        [if exNeuron.is_off_grid = true then
           RemoteCall.send_offgrid_remote exNeuron.get_thread (exNetwork.stamped exNeuron exEvent 2) 2
         else
           RemoteCall.send_remote exNeuron.get_thread (exNetwork.stamped exNeuron exEvent 2) 2] :=
  (send_SpikeEvent_with_proxies exNetwork exNeuron exEvent 2 rfl).2.2.1

/-- C8: for every event kind other than `SpikeEvent`, every source and every
lag, `send` leaves the scheduler as it was (neither `send_remote` nor
`send_offgrid_remote` is invoked), and it either delivers through
`send_local` or, its assertion failing, delivers nothing; whereas the
`SpikeEvent` specialization does send remotely. -/
theorem only_SpikeEvent_sends_remotely (net : Network) (k : EventKind) (source : Node)
    (e : Event) (lag : Int) (hk : k ≠ EventKind.SpikeEvent) :
    (net.send k source e lag).2.scheduler_ = net.scheduler_ ∧
    (net.send k source e lag).2.scheduler_.remote_calls = net.scheduler_.remote_calls ∧
    (net.send k source e lag =
        (Except.ok (net.stamped source e lag),
         net.send_local source.get_thread source (net.stamped source e lag)) ∨
     net.send k source e lag = (Except.error Failure.AssertionFailed, net)) ∧
    (∃ (net0 : Network) (source0 : Node) (e0 : Event) (lag0 : Int),
      (net0.send EventKind.SpikeEvent source0 e0 lag0).2.scheduler_.remote_calls ≠
        net0.scheduler_.remote_calls) := by
  refine ⟨?_, ?_, ?_, ⟨exNetwork, exNeuron, exEvent, 0, by decide⟩⟩
  all_goals
    cases k with
    | SpikeEvent => exact absurd rfl hk
    | DSSpikeEvent =>
      simp only [Network.send, send_DSSpikeEvent_eq]
      cases h : source.has_proxies <;> simp [send_local_scheduler]
    | other name =>
      simp only [Network.send, send_generic_eq]
      cases h : source.has_proxies <;> simp [send_local_scheduler]

theorem only_SpikeEvent_sends_remotely_witness :
    (exNetwork.send (EventKind.other "CurrentEvent") exDevice exEvent 0).2.scheduler_ =
      exNetwork.scheduler_ :=
  (only_SpikeEvent_sends_remotely exNetwork (EventKind.other "CurrentEvent") exDevice exEvent 0
    (by decide)).1

/-! ## Virtual processes and threads -/

/-- Whatever conversions the scheduler provides, once a network has a thread
and two or more processes there are more valid virtual processes than valid
threads: if `vp_to_thread` sends valid virtual processes to valid threads,
then `thread_to_vp(vp_to_thread(v))` differs from `v` for some valid virtual
process `v`. -/
theorem round_trip_impossible_on_all_vps (acc : VPAccess) (net : Network)
    (hT : 0 < net.get_num_threads) (hP : 1 < net.get_num_processes)
    (hf : ∀ v, net.valid_vp v → net.valid_thread (net.vp_to_thread acc v)) :
    ∃ v, net.valid_vp v ∧ net.thread_to_vp acc (net.vp_to_thread acc v) ≠ v := by
  unfold Network.valid_vp Network.valid_thread at *
  by_contra hno
  have hall : ∀ v, v < net.get_num_threads * net.get_num_processes →
      net.thread_to_vp acc (net.vp_to_thread acc v) = v := by
    intro v hv
    by_contra hne
    exact hno ⟨v, hv, hne⟩
  have hmaps : ∀ v ∈ Finset.range (net.get_num_threads * net.get_num_processes),
      net.vp_to_thread acc v ∈ Finset.range net.get_num_threads := by
    intro v hv
    exact Finset.mem_range.mpr (hf v (Finset.mem_range.mp hv))
  have hinj : Set.InjOn (net.vp_to_thread acc)
      (Finset.range (net.get_num_threads * net.get_num_processes)) := by
    intro a ha b hb hab
    have ha' := hall a (Finset.mem_range.mp ha)
    have hb' := hall b (Finset.mem_range.mp hb)
    rw [← ha', ← hb', hab]
  have hcard := Finset.card_le_card_of_injOn (net.vp_to_thread acc) hmaps hinj
  rw [Finset.card_range, Finset.card_range] at hcard
  have hlt : net.get_num_threads * 1 < net.get_num_threads * net.get_num_processes :=
    Nat.mul_lt_mul_of_le_of_lt (Nat.le_refl _) hP hT
  omega

/-! ## Size of the network -/

/-- C10: `size()` returns the number of entries of the flat node list, which
counts the container nodes (the root among them) as well as all other
nodes; it leaves the network, so also the node list, unchanged; and a
network holding the root and 100 created nodes has size 101. -/
theorem size_counts_every_node (net : Network) :
    net.size.1 = net.nodes_.length ∧
    net.size.1 = net.nodes_.countP is_compound +
      net.nodes_.countP (fun p => !is_compound p) ∧
    net.size.2 = net ∧
    net.size.2.nodes_ = net.nodes_ ∧
    (∀ (root : Option Node) (created : List (Option Node)),
      net.nodes_ = root :: created → created.length = 100 → net.size.1 = 101) := by
  refine ⟨rfl, ?_, rfl, rfl, ?_⟩
  · show net.nodes_.length = _
    induction net.nodes_ with
    | nil => rfl
    | cons p ps ih =>
      cases hp : is_compound p <;> simp [List.countP_cons, hp] <;> omega
  · intro root created hn hc
    show net.nodes_.length = 101
    rw [hn, List.length_cons, hc]

theorem size_counts_every_node_witness :
    exNetwork101.size.1 = 101 ∧ is_compound (some exRoot) = true :=
  ⟨(size_counts_every_node exNetwork101).2.2.2.2 (some exRoot)
      (List.replicate 100 (some exDevice)) rfl (List.length_replicate _ _),
   rfl⟩

/-! ## Per-connection property access -/

/-- C11: for every gid, synapse type, port and thread, `get_synapse_status`
of the network returns what `get_synapse_status` of the connection manager
returns for the same four values in the same order, and
`set_synapse_status` of the network applies `set_synapse_status` of the
connection manager to the same four values and the same dictionary; the
network changes only in its connection manager, as that call leaves it. A
connection manager that echoes its arguments shows that no key is dropped,
swapped or defaulted. -/
theorem synapse_status_forwards_all_keys {D : Type} (cm : SynapseStatusAccess D)
    (net : Network) (gid syn : Nat) (p : Int) (tid : Nat) (d : D) (d0 : List Int) :
    (net.get_synapse_status cm gid syn p tid).1 =
      (cm.get_synapse_status net.connection_manager_ gid syn p tid).1 ∧
    (net.get_synapse_status cm gid syn p tid).2 =
      { net with connection_manager_ :=
          (cm.get_synapse_status net.connection_manager_ gid syn p tid).2 } ∧
    (net.set_synapse_status cm gid syn p tid d).1 =
      (cm.set_synapse_status net.connection_manager_ gid syn p tid d).1 ∧
    (net.set_synapse_status cm gid syn p tid d).2 =
      { net with connection_manager_ :=
          (cm.set_synapse_status net.connection_manager_ gid syn p tid d).2 } ∧
    (net.get_synapse_status exEchoAccess gid syn p tid).1 =
      Except.ok [(gid : Int), (syn : Int), p, (tid : Int)] ∧
    (net.set_synapse_status exEchoAccess gid syn p tid d0).1 =
      Except.ok ((gid : Int) :: (syn : Int) :: p :: (tid : Int) :: d0) :=
  ⟨rfl, rfl, rfl, rfl, rfl, rfl⟩

theorem synapse_status_forwards_all_keys_witness :
    (exNetwork.get_synapse_status exEchoAccess 11 2 3 1).1 = Except.ok [11, 2, 3, 1] ∧
    (exNetwork.set_synapse_status exEchoAccess 11 2 3 1 [7]).1 = Except.ok [11, 2, 3, 1, 7] :=
  ⟨(synapse_status_forwards_all_keys exEchoAccess exNetwork 11 2 3 1 [7] [7]).2.2.2.2.1,
   (synapse_status_forwards_all_keys exEchoAccess exNetwork 11 2 3 1 [7] [7]).2.2.2.2.2⟩

/-! ## Routing of local delivery -/

/-- C12: `send_local(t, source, e)` invokes `send` of the connection manager
with exactly `(t, source.get_gid(), e)`, once, and touches nothing else of
the network; and whichever variant of `send` is called, it either leaves the
connection manager alone or delivers locally by
`send_local(source.get_thread(), source, e)` on the stamped event, so the
thread of a local delivery is the thread of the source. -/
theorem send_local_routes_by_thread_and_gid (net : Network) (t : Nat) (source : Node)
    (e : Event) (k : EventKind) (lag : Int) :
    (net.send_local t source e).connection_manager_ =
      net.connection_manager_.send t source.get_gid e ∧
    (net.send_local t source e).connection_manager_.local_calls =
      net.connection_manager_.local_calls ++ [LocalCall.mk t source.get_gid e] ∧
    net.send_local t source e =
      { net with connection_manager_ := net.connection_manager_.send t source.get_gid e } ∧
    ((net.send k source e lag).2.connection_manager_ = net.connection_manager_ ∨
     ((net.send k source e lag).2 =
        net.send_local source.get_thread source (net.stamped source e lag) ∧
      (net.send k source e lag).2.connection_manager_.local_calls =
        net.connection_manager_.local_calls ++
          [LocalCall.mk source.get_thread source.get_gid (net.stamped source e lag)])) := by
  refine ⟨rfl, rfl, rfl, ?_⟩
  cases k with
  | SpikeEvent =>
    simp only [Network.send, send_SpikeEvent_eq]
    cases h : source.has_proxies <;> cases hg : source.is_off_grid <;>
      simp [send_local_calls]
  | DSSpikeEvent =>
    simp only [Network.send, send_DSSpikeEvent_eq]
    cases h : source.has_proxies <;> simp [send_local_calls]
  | other name =>
    simp only [Network.send, send_generic_eq]
    cases h : source.has_proxies <;> simp [send_local_calls]

theorem send_local_routes_by_thread_and_gid_witness :
    (exNetwork.send_local 0 exDevice exEvent).connection_manager_.local_calls =
      exNetwork.connection_manager_.local_calls ++ [LocalCall.mk 0 exDevice.get_gid exEvent] :=
  (send_local_routes_by_thread_and_gid exNetwork 0 exDevice exEvent EventKind.SpikeEvent 0).2.1

/-! ## Address of a node given by index -/

/-- C13: for every node index `i`, `get_adr(i)` is `get_adr` applied to the
node that `get_node(i)` resolves to on thread 0; it fails with `UnknownNode`
exactly when `get_node(i)` does, with the same exception; when `get_node(i)`
fails no address is returned; and the network is unchanged. -/
theorem get_adr_of_index (acc : NodeAccess) (net : Network) (i : Nat) :
    (∀ p : Option Node, acc.get_node net i 0 = Except.ok p →
      (net.get_adr acc i).1 = Except.ok (acc.get_adr net p)) ∧
    (∀ x : Nat, (net.get_adr acc i).1 = Except.error (Failure.UnknownNode x) ↔
      acc.get_node net i 0 = Except.error (Failure.UnknownNode x)) ∧
    (∀ f : Failure, acc.get_node net i 0 = Except.error f →
      (net.get_adr acc i).1 = Except.error f ∧
      ∀ adr : List Nat, (net.get_adr acc i).1 ≠ Except.ok adr) ∧
    (∀ adr : List Nat, (net.get_adr acc i).1 = Except.ok adr →
      ∃ p : Option Node, acc.get_node net i 0 = Except.ok p ∧ adr = acc.get_adr net p) ∧
    (net.get_adr acc i).2 = net := by
  unfold Network.get_adr
  cases h : acc.get_node net i 0 with
  | ok p => simp
  | error f => simp

theorem get_adr_of_index_witness :
    (exNetwork.get_adr exNodeAccess 1).1 = Except.ok [0, 1] ∧
    (exNetwork.get_adr exNodeAccess 7).1 = Except.error (Failure.UnknownNode 7) :=
  ⟨(get_adr_of_index exNodeAccess exNetwork 1).1 (some exNeuron) rfl,
   ((get_adr_of_index exNodeAccess exNetwork 7).2.1 7).mpr rfl⟩

/-! ## User models -/

/-- C14: `has_user_models()` returns true exactly when the model list has
strictly more entries than the list of pristine models; it returns false
when the two lists have equal length (and when the model list is the
shorter), and a model appended to a model list as long as the pristine list,
as copying a model does, makes it return true. -/
theorem has_user_models_iff_more_models (net : Network) (copy : Option Model) :
    (net.has_user_models = true ↔ net.pristine_models_.length < net.models_.length) ∧
    (net.models_.length = net.pristine_models_.length → net.has_user_models = false) ∧
    (net.models_.length ≤ net.pristine_models_.length → net.has_user_models = false) ∧
    (net.models_.length = net.pristine_models_.length →
      Network.has_user_models { net with models_ := net.models_ ++ [copy] } = true) := by
  unfold Network.has_user_models
  refine ⟨?_, ?_, ?_, ?_⟩
  · simp
  · intro h; simp [h]
  · intro h; simpa using h
  · intro h; simp [h]

theorem has_user_models_iff_more_models_witness :
    exNetworkCopied.has_user_models = true ∧
    Network.has_user_models { exNetwork with models_ := [some ⟨"iaf_neuron"⟩] } = false :=
  ⟨(has_user_models_iff_more_models exNetworkCopied none).1.mpr (by decide),
   (has_user_models_iff_more_models { exNetwork with models_ := [some ⟨"iaf_neuron"⟩] } none).2.1
     rfl⟩

/-! ## Stamping of events -/

/-- The comparison of `ModelComp` has a defined result exactly on valid model
indices. -/
theorem ModelComp_defined_iff (models : List (Option Model)) (a b : Int) :
    (ModelComp models a b).isSome = true ↔
      valid_model_index models a ∧ valid_model_index models b := by
  unfold ModelComp name_at valid_model_index
  rcases ha : vector_at models a with _ | _ | ma <;>
    rcases hb : vector_at models b with _ | _ | mb <;> simp

/-- C16: on valid model indices `ModelComp` compares models by name and is a
strict weak ordering: `ModelComp(a, b)` holds exactly when the name of model
`a` is lexicographically less than the name of model `b`; it never holds of
`(a, a)`; it is asymmetric and transitive; two indices are incomparable
exactly when their models have equal names, and incomparability is
transitive. -/
theorem ModelComp_strict_weak_order (models : List (Option Model)) (a b c : Int)
    (ma mb mc : Model)
    (ha : vector_at models a = some (some ma))
    (hb : vector_at models b = some (some mb))
    (hc : vector_at models c = some (some mc)) :
    (ModelComp models a b = some true ↔ ma.get_name < mb.get_name) ∧
    (ModelComp models a b = some false ↔ ¬ ma.get_name < mb.get_name) ∧
    (ma.get_name < mb.get_name ↔ ma.get_name.toList < mb.get_name.toList) ∧
    ModelComp models a a = some false ∧
    (ModelComp models a b = some true → ModelComp models b a = some false) ∧
    (ModelComp models a b = some true → ModelComp models b c = some true →
      ModelComp models a c = some true) ∧
    ((ModelComp models a b = some false ∧ ModelComp models b a = some false) ↔
      ma.get_name = mb.get_name) ∧
    (ModelComp models a b = some false ∧ ModelComp models b a = some false →
      ModelComp models b c = some false ∧ ModelComp models c b = some false →
      ModelComp models a c = some false ∧ ModelComp models c a = some false) := by
  rw [ModelComp_of_valid models a b ma mb ha hb, ModelComp_of_valid models b a mb ma hb ha,
    ModelComp_of_valid models a a ma ma ha ha, ModelComp_of_valid models b c mb mc hb hc,
    ModelComp_of_valid models c b mc mb hc hb, ModelComp_of_valid models a c ma mc ha hc,
    ModelComp_of_valid models c a mc ma hc ha]
  simp only [Option.some.injEq, decide_eq_true_eq, decide_eq_false_iff_not]
  refine ⟨trivial, trivial, String.lt_iff_toList_lt, lt_irrefl _, ?_, ?_, ?_, ?_⟩
  · intro h
    exact lt_asymm h
  · intro h1 h2
    exact lt_trans h1 h2
  · constructor
    · rintro ⟨h1, h2⟩
      exact le_antisymm (not_lt.mp h2) (not_lt.mp h1)
    · intro h
      rw [h]
      exact ⟨lt_irrefl _, lt_irrefl _⟩
  · rintro ⟨h1, h2⟩ ⟨h3, h4⟩
    have hab : ma.get_name = mb.get_name := le_antisymm (not_lt.mp h2) (not_lt.mp h1)
    have hbc : mb.get_name = mc.get_name := le_antisymm (not_lt.mp h4) (not_lt.mp h3)
    rw [hab, hbc]
    exact ⟨lt_irrefl _, lt_irrefl _⟩

theorem ModelComp_strict_weak_order_witness :
    (ModelComp exModels 3 0 = some true ↔ "dc_generator" < "iaf_neuron") ∧
    ModelComp exModels 3 3 = some false :=
  ⟨(ModelComp_strict_weak_order exModels 3 0 2 ⟨"dc_generator"⟩ ⟨"iaf_neuron"⟩
      ⟨"iaf_neuron_copy"⟩ rfl rfl rfl).1,
   (ModelComp_strict_weak_order exModels 3 0 2 ⟨"dc_generator"⟩ ⟨"iaf_neuron"⟩
      ⟨"iaf_neuron_copy"⟩ rfl rfl rfl).2.2.2.1⟩

end nest
